import Mathlib

/-!
Verification development for the X-mastarfield interactive 3D experience.

The definitions below are a shallow embedding of the repository's core logic:

* the mode state machine `handleGestureUpdate` and upload handler
  `handleFileUpload` (src/unnamed/part_000, `App`),
* the gesture classifier if-chain from `predictWebcam`
  (src/unnamed/part_000) as `classifyGesture`, together with the landmark
  normalizer `predictSummary`,
* the per-frame blend engine: nested linear interpolation of tree / chaos /
  message positions (`updateMesh` in src/unnamed/part_001 and the
  foliage/spiral vertex shaders in src/components/TreeSystem.tsx) and the
  exponential easing of the two blend weights
  (`THREE.MathUtils.lerp(w, target, 0.05)`),
* the chaos-formation samplers of `generateTreeData`, `useOrnamentData`
  (spherical coordinates) and `generateSpiralData` (per-coordinate cube).

JavaScript number arithmetic is modelled exactly: by `ℚ` where the code uses
field operations only, and by `ℝ` where square roots or trigonometric
functions occur (`Math.hypot`, `Math.sin`, `Math.cos`, `Math.acos`).
-/

/-- The application modes of `AppMode` in src/types.ts. -/
inductive AppMode : Type
  | TREE : AppMode
  | SCATTER : AppMode
  | FOCUS : AppMode
  | NEW_YEAR : AppMode
deriving DecidableEq, Repr

/-- The gesture labels of `GestureState.gesture` in src/types.ts. -/
inductive Gesture : Type
  | NONE : Gesture
  | FIST : Gesture
  | OPEN_PALM : Gesture
  | PINCH : Gesture
  | YEAH : Gesture
deriving DecidableEq, Repr

/-- A 3D vector over exact rationals (models a `THREE.Vector3`). -/
abbrev Vec3 : Type := ℚ × ℚ × ℚ

/-- `THREE.Vector3.lerpVectors(a, b, t)`: componentwise `a + (b - a) * t`
(used by `updateMesh` in src/unnamed/part_001 and by `PolaroidPhoto`). -/
def lerpVectors (a b : Vec3) (t : ℚ) : Vec3 :=
  (a.1 + (b.1 - a.1) * t, a.2.1 + (b.2.1 - a.2.1) * t, a.2.2 + (b.2.2 - a.2.2) * t)

/-- GLSL `mix(a, b, t)`: componentwise `a * (1 - t) + b * t` (used by the
foliage and spiral vertex shaders in src/components/TreeSystem.tsx). -/
def mixVec (a b : Vec3) (t : ℚ) : Vec3 :=
  (a.1 * (1 - t) + b.1 * t, a.2.1 * (1 - t) + b.2.1 * t, a.2.2 * (1 - t) + b.2.2 * t)

/-- Per-frame element position of `updateMesh` (src/unnamed/part_001 line 240):
`new THREE.Vector3().lerpVectors(new THREE.Vector3().lerpVectors(d.treePos,
d.chaosPos, s), d.nyPos, n)` — tree/chaos blended first, then that result
blended toward the message (new-year) position. -/
def updateMeshPos (treePos chaosPos nyPos : Vec3) (s n : ℚ) : Vec3 :=
  lerpVectors (lerpVectors treePos chaosPos s) nyPos n

/-- Per-vertex position of the foliage/spiral shaders
(src/components/TreeSystem.tsx lines 188-189 and 248-249):
`currentPos = mix(treePos, chaosPos, uScatter); finalPos = mix(currentPos,
nyPos, uNewYear)`. -/
def shaderFinalPos (treePos chaosPos nyPos : Vec3) (uScatter uNewYear : ℚ) : Vec3 :=
  mixVec (mixVec treePos chaosPos uScatter) nyPos uNewYear

/-- `THREE.MathUtils.lerp(x, y, t) = (1 - t) * x + t * y`, the exponential
easing step applied every frame to each blend weight. -/
def mathUtilsLerp (x y t : ℚ) : ℚ := (1 - t) * x + t * y

/-- Scatter-weight target implied by the mode (`ts = 1` iff mode is SCATTER
or FOCUS; src/components/TreeSystem.tsx line 393, src/unnamed/part_001
line 227). -/
def scatterTarget (m : AppMode) : ℚ :=
  if m = AppMode.SCATTER ∨ m = AppMode.FOCUS then 1 else 0

/-- Message-weight target implied by the mode (`tn = 1` iff mode is NEW_YEAR;
src/components/TreeSystem.tsx line 394, src/unnamed/part_001 line 228). -/
def messageTarget (m : AppMode) : ℚ :=
  if m = AppMode.NEW_YEAR then 1 else 0

/-- One frame of weight easing: both weights move toward their mode-derived
targets by `MathUtils.lerp` with smoothing factor `a` (the code uses
`a = 0.05` for foliage, spirals and ornaments). -/
def stepWeights (a : ℚ) (m : AppMode) (w : ℚ × ℚ) : ℚ × ℚ :=
  (mathUtilsLerp w.1 (scatterTarget m) a, mathUtilsLerp w.2 (messageTarget m) a)

/-- The eased weights after running a sequence of frames; the mode seen at
each frame is given by the list. -/
def runWeights (a : ℚ) (modes : List AppMode) (w : ℚ × ℚ) : ℚ × ℚ :=
  modes.foldl (fun wacc m => stepWeights a m wacc) w

/-- The application state mutated by `handleGestureUpdate` and
`handleFileUpload` in src/unnamed/part_000: the current mode, the focused
photo (modelled by its index into the uploaded-images array), the debounce
timestamp `lastGestureSwitchRef` (ms, as `Date.now()`), whether the modal
caption dialog is open (`editingId` non-null), the number of uploaded
images, and the last stored gesture sample (`setGestureState`). -/
structure AppState : Type where
  mode : AppMode
  focus : Option Nat
  lastSwitch : ℤ
  editing : Bool
  images : Nat
  lastPose : Gesture
deriving DecidableEq, Repr

/-- `handleGestureUpdate` (src/unnamed/part_000 lines 180-214).  `now` is
`Date.now()`; `u` models the `Math.random()` draw in `[0,1)` used for the
PINCH branch (`randomIdx = Math.floor(Math.random() * images.length)`).
Rejects everything while editing; stores the gesture sample; rejects mode
changes within 1000 ms of the last accepted switch; otherwise dispatches on
the gesture exactly as the source does. -/
def handleGestureUpdate (s : AppState) (g : Gesture) (now : ℤ) (u : ℚ) : AppState :=
  if s.editing then s
  else
    let s1 := { s with lastPose := g }
    if now - s1.lastSwitch < 1000 then s1
    else
      match g with
      | Gesture.FIST =>
          if s1.mode ≠ AppMode.TREE then
            { s1 with mode := AppMode.TREE, focus := none, lastSwitch := now }
          else s1
      | Gesture.OPEN_PALM =>
          if s1.mode ≠ AppMode.SCATTER then
            { s1 with mode := AppMode.SCATTER, focus := none, lastSwitch := now }
          else s1
      | Gesture.PINCH =>
          if 0 < s1.images then
            if s1.mode ≠ AppMode.FOCUS then
              { s1 with focus := some (Int.toNat ⌊u * (s1.images : ℚ)⌋),
                        mode := AppMode.FOCUS, lastSwitch := now }
            else s1
          else s1
      | Gesture.YEAH =>
          if s1.mode ≠ AppMode.NEW_YEAR then
            { s1 with mode := AppMode.NEW_YEAR, focus := none, lastSwitch := now }
          else s1
      | Gesture.NONE => s1

/-- `handleFileUpload` (src/unnamed/part_000 lines 230-258), restricted to the
state fields of the model: appends the new image, opens the caption dialog
(`setEditingId(newId)`), sets the mode to TREE and clears the focus
selection; the debounce timestamp is not consulted or touched. -/
def handleFileUpload (s : AppState) : AppState :=
  { s with images := s.images + 1, editing := true,
           mode := AppMode.TREE, focus := none }

/-- The gesture classifier of `predictWebcam` (src/unnamed/part_000 lines
625-635), as a function of the five fingertip distances it branches on:
first matching rule wins, in the fixed order FIST, YEAH, PINCH, OPEN_PALM,
otherwise NONE.  Stated over any linear ordered field so that the same
if-chain serves the exact-rational statements and the real-valued
landmark pipeline. -/
def classifyGesture {F : Type} [LinearOrderedField F]
    (pinchDist distIndex distMiddle distRing distPinky : F) : Gesture :=
  let avgFingerDist := (distIndex + distMiddle + distRing + distPinky) / 4
  if avgFingerDist < 23 / 100 then Gesture.FIST
  else if distIndex > 35 / 100 ∧ distMiddle > 35 / 100 ∧
          distRing < 25 / 100 ∧ distPinky < 25 / 100 then Gesture.YEAH
  else if pinchDist < 8 / 100 then Gesture.PINCH
  else if avgFingerDist > 38 / 100 then Gesture.OPEN_PALM
  else Gesture.NONE

/-- `Math.hypot(dx, dy)`: the euclidean length of a 2D displacement. -/
noncomputable def hypot (dx dy : ℝ) : ℝ := Real.sqrt (dx ^ 2 + dy ^ 2)

/-- The per-frame pose summary `GestureState` of src/types.ts, with the
image-plane numeric fields over `ℝ`. -/
structure GestureState : Type where
  x : ℝ
  y : ℝ
  handSize : ℝ
  isDetected : Bool
  gesture : Gesture

/-- The landmark-normalizing and classifying core of `predictWebcam`
(src/unnamed/part_000 lines 589-639): the input is the first detected
hand's landmark list (or `none` when no hand is present), each landmark an
image-plane point.  With a hand and at least 21 points it produces the
mirrored pointer coordinates, the wrist-to-middle-MCP hand size and the
classified gesture; otherwise all numeric fields stay 0, `isDetected` stays
false and the gesture stays NONE. -/
noncomputable def predictSummary (lms : Option (List (ℝ × ℝ))) : GestureState :=
  match lms with
  | none => ⟨0, 0, 0, false, Gesture.NONE⟩
  | some landmarks =>
    if 21 ≤ landmarks.length then
      let wrist := landmarks.getD 0 (0, 0)
      let middleMCP := landmarks.getD 9 (0, 0)
      let thumbTip := landmarks.getD 4 (0, 0)
      let indexTip := landmarks.getD 8 (0, 0)
      let middleTip := landmarks.getD 12 (0, 0)
      let ringTip := landmarks.getD 16 (0, 0)
      let pinkyTip := landmarks.getD 20 (0, 0)
      let pinchDist := hypot (indexTip.1 - thumbTip.1) (indexTip.2 - thumbTip.2)
      let distIndex := hypot (indexTip.1 - wrist.1) (indexTip.2 - wrist.2)
      let distMiddle := hypot (middleTip.1 - wrist.1) (middleTip.2 - wrist.2)
      let distRing := hypot (ringTip.1 - wrist.1) (ringTip.2 - wrist.2)
      let distPinky := hypot (pinkyTip.1 - wrist.1) (pinkyTip.2 - wrist.2)
      ⟨(middleMCP.1 - 1 / 2) * (-2), (middleMCP.2 - 1 / 2) * 2,
        hypot (middleMCP.1 - wrist.1) (middleMCP.2 - wrist.2), true,
        classifyGesture pinchDist distIndex distMiddle distRing distPinky⟩
    else ⟨0, 0, 0, false, Gesture.NONE⟩

/-- Spherical chaos-formation sample shared by `generateTreeData`
(src/components/TreeSystem.tsx lines 297-302, `base = 20`, `extra = 20`) and
`useOrnamentData` (src/unnamed/part_001 lines 181-183, `base =
scatterRadius`, `extra = 10`): `theta = u1 * 2π`, `phi = acos(u2 * 2 - 1)`,
`r = base + u3 * extra`, and the point `(r sin φ cos θ, r sin φ sin θ,
r cos φ)`; `u1 u2 u3` are the three `Math.random()` draws. -/
noncomputable def sphericalChaos (base extra u1 u2 u3 : ℝ) : ℝ × ℝ × ℝ :=
  let theta := u1 * Real.pi * 2
  let phi := Real.arccos (u2 * 2 - 1)
  let r := base + u3 * extra
  (r * Real.sin phi * Real.cos theta, r * Real.sin phi * Real.sin theta,
   r * Real.cos phi)

/-- The chaos position of one foliage particle in `generateTreeData`
(src/components/TreeSystem.tsx lines 297-302): `r = 20 + Math.random() * 20`. -/
noncomputable def treeChaos (u1 u2 u3 : ℝ) : ℝ × ℝ × ℝ :=
  sphericalChaos 20 20 u1 u2 u3

/-- The chaos position of one ornament in `useOrnamentData`
(src/unnamed/part_001 lines 181-183): `r = scatterRadius + Math.random() * 10`. -/
noncomputable def ornamentChaos (scatterRadius u1 u2 u3 : ℝ) : ℝ × ℝ × ℝ :=
  sphericalChaos scatterRadius 10 u1 u2 u3

/-- The chaos position of one spiral particle in `generateSpiralData`
(src/components/TreeSystem.tsx lines 327-329): each coordinate is an
independent `(Math.random() - 0.5) * 45` — a cube, not a spherical shell. -/
def spiralChaos (u1 u2 u3 : ℚ) : Vec3 :=
  ((u1 - 1 / 2) * 45, (u2 - 1 / 2) * 45, (u3 - 1 / 2) * 45)

/-- Euclidean norm of a real 3D point. -/
noncomputable def norm3 (v : ℝ × ℝ × ℝ) : ℝ :=
  Real.sqrt (v.1 ^ 2 + v.2.1 ^ 2 + v.2.2 ^ 2)

/-- Squared euclidean norm of a rational 3D point. -/
def normSq3 (v : Vec3) : ℚ := v.1 ^ 2 + v.2.1 ^ 2 + v.2.2 ^ 2

theorem mathUtilsLerp_mem_unit (w t a : ℚ) (hw0 : 0 ≤ w) (hw1 : w ≤ 1)
    (ht0 : 0 ≤ t) (ht1 : t ≤ 1) (ha0 : 0 ≤ a) (ha1 : a ≤ 1) :
    0 ≤ mathUtilsLerp w t a ∧ mathUtilsLerp w t a ≤ 1 := by
  unfold mathUtilsLerp
  constructor <;> nlinarith

theorem scatterTarget_mem_unit (m : AppMode) :
    0 ≤ scatterTarget m ∧ scatterTarget m ≤ 1 := by
  unfold scatterTarget
  split <;> norm_num

theorem messageTarget_mem_unit (m : AppMode) :
    0 ≤ messageTarget m ∧ messageTarget m ≤ 1 := by
  unfold messageTarget
  split <;> norm_num

/-- Claim C1: the per-frame position is the nested interpolation
`lerp(lerp(homePos, chaosPos, scatterWeight), messagePos, messageWeight)`
(both in `updateMesh` via `lerpVectors` and in the vertex shaders via
`mix`), so whenever the message weight is 1 the element sits exactly at its
message position, for every scatter weight — in particular for 0, 0.5
and 1. -/
theorem blend_messageWeight_one_exact (treePos chaosPos nyPos : Vec3) (s : ℚ) :
    updateMeshPos treePos chaosPos nyPos s 1 = nyPos ∧
    shaderFinalPos treePos chaosPos nyPos s 1 = nyPos := by
  obtain ⟨t1, t2, t3⟩ := treePos
  obtain ⟨c1, c2, c3⟩ := chaosPos
  obtain ⟨m1, m2, m3⟩ := nyPos
  constructor <;>
    · simp only [updateMeshPos, shaderFinalPos, lerpVectors, mixVec, Prod.ext_iff]
      refine ⟨by ring, by ring, by ring⟩

/-- Claim C10: on every accepted photo upload the application appends the
photo, opens the caption dialog, unconditionally sets the mode to TREE and
clears the focus selection, and neither consults nor updates the gesture
debounce timestamp. -/
theorem upload_resets_mode_and_focus (s : AppState) :
    (handleFileUpload s).mode = AppMode.TREE ∧
    (handleFileUpload s).focus = none ∧
    (handleFileUpload s).editing = true ∧
    (handleFileUpload s).images = s.images + 1 ∧
    (handleFileUpload s).lastSwitch = s.lastSwitch := by
  simp [handleFileUpload]

/-- Claim C5: while the caption dialog is open (`editingId` non-null), a
gesture sample changes nothing at all — no mode transition, no focus
change, no debounce update — for every gesture, timestamp and random
draw. -/
theorem editing_locks_all_transitions (s : AppState) (g : Gesture) (now : ℤ)
    (u : ℚ) (h : s.editing = true) : handleGestureUpdate s g now u = s := by
  simp [handleGestureUpdate, h]

theorem editing_locks_all_transitions_witness :
    (⟨AppMode.TREE, none, 0, true, 3, Gesture.NONE⟩ : AppState).editing = true ∧
    handleGestureUpdate ⟨AppMode.TREE, none, 0, true, 3, Gesture.NONE⟩
      Gesture.OPEN_PALM 5000 0 = ⟨AppMode.TREE, none, 0, true, 3, Gesture.NONE⟩ :=
  ⟨rfl, editing_locks_all_transitions _ _ 5000 0 rfl⟩

/-- Claim C7: a PINCH gesture with zero uploaded photos is a silent no-op —
the (total) handler raises no error, keeps the mode, the focus selection
and the debounce timestamp unchanged, for every state, timestamp and random
draw. -/
theorem pinch_without_photos_noop (s : AppState) (now : ℤ) (u : ℚ)
    (h : s.images = 0) :
    (handleGestureUpdate s Gesture.PINCH now u).mode = s.mode ∧
    (handleGestureUpdate s Gesture.PINCH now u).focus = s.focus ∧
    (handleGestureUpdate s Gesture.PINCH now u).lastSwitch = s.lastSwitch := by
  unfold handleGestureUpdate
  split_ifs <;> simp_all

theorem pinch_without_photos_noop_witness :
    (⟨AppMode.SCATTER, none, 0, false, 0, Gesture.NONE⟩ : AppState).images = 0 ∧
    ((handleGestureUpdate ⟨AppMode.SCATTER, none, 0, false, 0, Gesture.NONE⟩
        Gesture.PINCH 5000 0).mode = AppMode.SCATTER ∧
     (handleGestureUpdate ⟨AppMode.SCATTER, none, 0, false, 0, Gesture.NONE⟩
        Gesture.PINCH 5000 0).focus = none ∧
     (handleGestureUpdate ⟨AppMode.SCATTER, none, 0, false, 0, Gesture.NONE⟩
        Gesture.PINCH 5000 0).lastSwitch = 0) :=
  ⟨rfl, pinch_without_photos_noop _ 5000 0 rfl⟩

/-- Claim C4: whenever the derived finger distances satisfy the FIST
threshold (`avgFingerDist < 0.23`) and simultaneously all four YEAH
thresholds, the classifier returns FIST, because the rules are checked in
the fixed order FIST, YEAH, PINCH, OPEN_PALM (otherwise NONE). -/
theorem classifier_fist_beats_yeah
    (pinchDist distIndex distMiddle distRing distPinky : ℚ)
    (havg : (distIndex + distMiddle + distRing + distPinky) / 4 < 23 / 100)
    (_hi : distIndex > 35 / 100) (_hm : distMiddle > 35 / 100)
    (_hr : distRing < 25 / 100) (_hp : distPinky < 25 / 100) :
    classifyGesture pinchDist distIndex distMiddle distRing distPinky =
      Gesture.FIST := by
  unfold classifyGesture
  rw [if_pos havg]

theorem classifier_fist_beats_yeah_witness :
    (((36 : ℚ) / 100 + 36 / 100 + 5 / 100 + 5 / 100) / 4 < 23 / 100 ∧
     (36 : ℚ) / 100 > 35 / 100 ∧ (36 : ℚ) / 100 > 35 / 100 ∧
     (5 : ℚ) / 100 < 25 / 100 ∧ (5 : ℚ) / 100 < 25 / 100) ∧
    classifyGesture (0 : ℚ) (36 / 100) (36 / 100) (5 / 100) (5 / 100) =
      Gesture.FIST :=
  ⟨by norm_num,
   classifier_fist_beats_yeah 0 (36 / 100) (36 / 100) (5 / 100) (5 / 100)
     (by norm_num) (by norm_num) (by norm_num) (by norm_num) (by norm_num)⟩

/-- Claim C2: for every sequence of per-frame modes, the eased scatter and
message weights stay in `[0,1]`: each frame moves a weight toward a target
in `{0,1}` by `MathUtils.lerp` with a factor in `(0,1)`, which never
overshoots the interval, given initial values in `[0,1]`. -/
theorem weights_stay_in_unit_interval (a : ℚ) (ha0 : 0 < a) (ha1 : a < 1)
    (modes : List AppMode) (w : ℚ × ℚ)
    (h1 : 0 ≤ w.1) (h2 : w.1 ≤ 1) (h3 : 0 ≤ w.2) (h4 : w.2 ≤ 1) :
    0 ≤ (runWeights a modes w).1 ∧ (runWeights a modes w).1 ≤ 1 ∧
    0 ≤ (runWeights a modes w).2 ∧ (runWeights a modes w).2 ≤ 1 := by
  induction modes generalizing w with
  | nil => exact ⟨h1, h2, h3, h4⟩
  | cons m ms ih =>
      have hs := scatterTarget_mem_unit m
      have hn := messageTarget_mem_unit m
      have l1 := mathUtilsLerp_mem_unit w.1 (scatterTarget m) a h1 h2 hs.1 hs.2
        (le_of_lt ha0) (le_of_lt ha1)
      have l2 := mathUtilsLerp_mem_unit w.2 (messageTarget m) a h3 h4 hn.1 hn.2
        (le_of_lt ha0) (le_of_lt ha1)
      exact ih (stepWeights a m w) l1.1 l1.2 l2.1 l2.2

theorem weights_stay_in_unit_interval_witness :
    ((0 : ℚ) < 1 / 20 ∧ (1 : ℚ) / 20 < 1 ∧ (0 : ℚ) ≤ 0 ∧ (0 : ℚ) ≤ 1) ∧
    (0 ≤ (runWeights (1 / 20)
        [AppMode.SCATTER, AppMode.NEW_YEAR, AppMode.TREE] ((0 : ℚ), (0 : ℚ))).1 ∧
     (runWeights (1 / 20)
        [AppMode.SCATTER, AppMode.NEW_YEAR, AppMode.TREE] ((0 : ℚ), (0 : ℚ))).1 ≤ 1 ∧
     0 ≤ (runWeights (1 / 20)
        [AppMode.SCATTER, AppMode.NEW_YEAR, AppMode.TREE] ((0 : ℚ), (0 : ℚ))).2 ∧
     (runWeights (1 / 20)
        [AppMode.SCATTER, AppMode.NEW_YEAR, AppMode.TREE] ((0 : ℚ), (0 : ℚ))).2 ≤ 1) :=
  ⟨by norm_num,
   weights_stay_in_unit_interval (1 / 20) (by norm_num) (by norm_num)
     [AppMode.SCATTER, AppMode.NEW_YEAR, AppMode.TREE] ((0 : ℚ), (0 : ℚ))
     (by norm_num) (by norm_num) (by norm_num) (by norm_num)⟩

/-- Claim C3: a gesture-driven transition is rejected when fewer than
1000 ms have elapsed since the last accepted transition; the debounce
timestamp changes only on an accepted transition (and then to that event's
time); and the stream OPEN_PALM, OPEN_PALM, FIST at relative times 0 ms,
200 ms and 1100 ms, starting in TREE with the debounce interval already
expired, yields SCATTER (accepted), SCATTER (no-op) and TREE (accepted). -/
theorem debounce_gate_and_scenario :
    (∀ (s : AppState) (g : Gesture) (now : ℤ) (u : ℚ),
        now - s.lastSwitch < 1000 →
        (handleGestureUpdate s g now u).mode = s.mode ∧
        (handleGestureUpdate s g now u).focus = s.focus ∧
        (handleGestureUpdate s g now u).lastSwitch = s.lastSwitch) ∧
    (∀ (s : AppState) (g : Gesture) (now : ℤ) (u : ℚ),
        (handleGestureUpdate s g now u).lastSwitch ≠ s.lastSwitch →
        (handleGestureUpdate s g now u).lastSwitch = now ∧
        (handleGestureUpdate s g now u).mode ≠ s.mode) ∧
    (∀ (s0 : AppState) (t0 : ℤ) (u1 u2 u3 : ℚ),
        s0.mode = AppMode.TREE → s0.editing = false →
        1000 ≤ t0 - s0.lastSwitch →
        (handleGestureUpdate s0 Gesture.OPEN_PALM t0 u1).mode =
          AppMode.SCATTER ∧
        (handleGestureUpdate s0 Gesture.OPEN_PALM t0 u1).lastSwitch = t0 ∧
        (handleGestureUpdate (handleGestureUpdate s0 Gesture.OPEN_PALM t0 u1)
            Gesture.OPEN_PALM (t0 + 200) u2).mode = AppMode.SCATTER ∧
        (handleGestureUpdate (handleGestureUpdate s0 Gesture.OPEN_PALM t0 u1)
            Gesture.OPEN_PALM (t0 + 200) u2).focus =
          (handleGestureUpdate s0 Gesture.OPEN_PALM t0 u1).focus ∧
        (handleGestureUpdate (handleGestureUpdate s0 Gesture.OPEN_PALM t0 u1)
            Gesture.OPEN_PALM (t0 + 200) u2).lastSwitch = t0 ∧
        (handleGestureUpdate (handleGestureUpdate (handleGestureUpdate s0
              Gesture.OPEN_PALM t0 u1) Gesture.OPEN_PALM (t0 + 200) u2)
            Gesture.FIST (t0 + 1100) u3).mode = AppMode.TREE ∧
        (handleGestureUpdate (handleGestureUpdate (handleGestureUpdate s0
              Gesture.OPEN_PALM t0 u1) Gesture.OPEN_PALM (t0 + 200) u2)
            Gesture.FIST (t0 + 1100) u3).lastSwitch = t0 + 1100) := by
  refine ⟨?_, ?_, ?_⟩
  · intro s g now u h
    by_cases he : s.editing = true
    · simp [handleGestureUpdate, he]
    · simp only [Bool.not_eq_true] at he
      simp [handleGestureUpdate, he, h]
  · intro s g now u hne
    simp only [handleGestureUpdate] at hne ⊢
    cases g <;> split_ifs at hne ⊢ <;> simp_all <;> tauto
  · intro s0 t0 u1 u2 u3 hmode hedit hdeb
    have h1 : handleGestureUpdate s0 Gesture.OPEN_PALM t0 u1 =
        { s0 with lastPose := Gesture.OPEN_PALM, mode := AppMode.SCATTER,
                  focus := none, lastSwitch := t0 } := by
      simp only [handleGestureUpdate]
      rw [if_neg (by simp [hedit])]
      rw [if_neg (by omega)]
      rw [if_pos (by simp [hmode])]
    have h2 : handleGestureUpdate (handleGestureUpdate s0 Gesture.OPEN_PALM t0 u1)
        Gesture.OPEN_PALM (t0 + 200) u2 =
        { s0 with lastPose := Gesture.OPEN_PALM, mode := AppMode.SCATTER,
                  focus := none, lastSwitch := t0 } := by
      rw [h1]
      simp only [handleGestureUpdate]
      rw [if_neg (by simp [hedit])]
      rw [if_pos (by omega)]
    have h3 : handleGestureUpdate (handleGestureUpdate (handleGestureUpdate s0
          Gesture.OPEN_PALM t0 u1) Gesture.OPEN_PALM (t0 + 200) u2)
          Gesture.FIST (t0 + 1100) u3 =
        { s0 with lastPose := Gesture.FIST, mode := AppMode.TREE,
                  focus := none, lastSwitch := t0 + 1100 } := by
      rw [h2]
      simp only [handleGestureUpdate]
      rw [if_neg (by simp [hedit])]
      rw [if_neg (by omega)]
      rw [if_pos (by simp)]
    exact ⟨by rw [h1], by rw [h1], by rw [h2], by rw [h2, h1], by rw [h2],
           by rw [h3], by rw [h3]⟩

theorem debounce_gate_and_scenario_witness :
    ((5 : ℤ) - (⟨AppMode.TREE, none, 0, false, 0, Gesture.NONE⟩ : AppState).lastSwitch < 1000 ∧
     ((handleGestureUpdate ⟨AppMode.TREE, none, 0, false, 0, Gesture.NONE⟩
         Gesture.OPEN_PALM 5 0).mode = AppMode.TREE ∧
      (handleGestureUpdate ⟨AppMode.TREE, none, 0, false, 0, Gesture.NONE⟩
         Gesture.OPEN_PALM 5 0).focus = none ∧
      (handleGestureUpdate ⟨AppMode.TREE, none, 0, false, 0, Gesture.NONE⟩
         Gesture.OPEN_PALM 5 0).lastSwitch = 0)) ∧
    ((⟨AppMode.TREE, none, 0, false, 0, Gesture.NONE⟩ : AppState).mode = AppMode.TREE ∧
     (⟨AppMode.TREE, none, 0, false, 0, Gesture.NONE⟩ : AppState).editing = false ∧
     (1000 : ℤ) ≤ 2000 - 0 ∧
     (handleGestureUpdate ⟨AppMode.TREE, none, 0, false, 0, Gesture.NONE⟩
        Gesture.OPEN_PALM 2000 0).mode = AppMode.SCATTER ∧
     (handleGestureUpdate (handleGestureUpdate
        (handleGestureUpdate ⟨AppMode.TREE, none, 0, false, 0, Gesture.NONE⟩
           Gesture.OPEN_PALM 2000 0) Gesture.OPEN_PALM (2000 + 200) 0)
        Gesture.FIST (2000 + 1100) 0).mode = AppMode.TREE) :=
  ⟨⟨by norm_num,
    (debounce_gate_and_scenario.1 ⟨AppMode.TREE, none, 0, false, 0, Gesture.NONE⟩
       Gesture.OPEN_PALM 5 0 (by norm_num))⟩,
   by
    have h := debounce_gate_and_scenario.2.2
      ⟨AppMode.TREE, none, 0, false, 0, Gesture.NONE⟩ 2000 0 0 0 rfl rfl (by norm_num)
    exact ⟨rfl, rfl, by norm_num, h.1, h.2.2.2.2.2.1⟩⟩

/-- Claim C6: PINCH transitions to FOCUS only when at least one uploaded
photo exists; an accepted PINCH stores the photo index `⌊u·n⌋` obtained
from the uniform draw `u` — always a valid index, and index `i` is chosen
exactly when `u` falls in the length-`1/n` interval `[i/n, (i+1)/n)`, so a
uniform draw selects every index with equal probability — and a repeated
PINCH while already in FOCUS changes neither the selected index nor the
mode (no re-roll). -/
theorem pinch_focus_selection :
    (∀ (s : AppState) (now : ℤ) (u : ℚ), s.images = 0 →
        (handleGestureUpdate s Gesture.PINCH now u).mode = s.mode) ∧
    (∀ (s : AppState) (now : ℤ) (u : ℚ),
        s.editing = false → 1000 ≤ now - s.lastSwitch → 0 < s.images →
        s.mode ≠ AppMode.FOCUS → 0 ≤ u → u < 1 →
        (handleGestureUpdate s Gesture.PINCH now u).mode = AppMode.FOCUS ∧
        (handleGestureUpdate s Gesture.PINCH now u).focus =
          some (Int.toNat ⌊u * (s.images : ℚ)⌋) ∧
        Int.toNat ⌊u * (s.images : ℚ)⌋ < s.images) ∧
    (∀ (s : AppState) (now : ℤ) (u : ℚ), s.mode = AppMode.FOCUS →
        (handleGestureUpdate s Gesture.PINCH now u).focus = s.focus ∧
        (handleGestureUpdate s Gesture.PINCH now u).mode = AppMode.FOCUS) ∧
    (∀ (n i : ℕ) (u : ℚ), 0 < n → 0 ≤ u → u < 1 →
        (Int.toNat ⌊u * (n : ℚ)⌋ = i ↔
          (i : ℚ) / n ≤ u ∧ u < ((i : ℚ) + 1) / n)) := by
  refine ⟨?_, ?_, ?_, ?_⟩
  · intro s now u h
    unfold handleGestureUpdate
    split_ifs <;> simp_all
  · intro s now u hedit hdeb himg hmode hu0 hu1
    have hnq : (0 : ℚ) < (s.images : ℚ) := by exact_mod_cast himg
    have hrec : handleGestureUpdate s Gesture.PINCH now u =
        { s with lastPose := Gesture.PINCH,
                 focus := some (Int.toNat ⌊u * (s.images : ℚ)⌋),
                 mode := AppMode.FOCUS, lastSwitch := now } := by
      simp only [handleGestureUpdate]
      rw [if_neg (by simp [hedit])]
      rw [if_neg (by omega)]
      rw [if_pos himg]
      rw [if_pos hmode]
    have hfl0 : 0 ≤ ⌊u * (s.images : ℚ)⌋ :=
      Int.floor_nonneg.mpr (mul_nonneg hu0 (le_of_lt hnq))
    have hflt : ⌊u * (s.images : ℚ)⌋ < (s.images : ℤ) :=
      Int.floor_lt.mpr (by
        push_cast
        exact (mul_lt_iff_lt_one_left hnq).mpr hu1)
    refine ⟨by rw [hrec], by rw [hrec], by omega⟩
  · intro s now u hm
    unfold handleGestureUpdate
    split_ifs <;> simp_all
  · intro n i u hn hu0 hu1
    have hnq : (0 : ℚ) < (n : ℚ) := by exact_mod_cast hn
    have hfl0 : 0 ≤ ⌊u * (n : ℚ)⌋ :=
      Int.floor_nonneg.mpr (mul_nonneg hu0 (le_of_lt hnq))
    constructor
    · intro h
      have hz : ⌊u * (n : ℚ)⌋ = (i : ℤ) := by omega
      have hiff := Int.floor_eq_iff.mp hz
      constructor
      · rw [div_le_iff₀ hnq]
        calc (i : ℚ) ≤ u * n := by exact_mod_cast hiff.1
        _ = u * n := rfl
      · rw [lt_div_iff₀ hnq]
        calc u * (n : ℚ) < (i : ℤ) + 1 := hiff.2
        _ = (i : ℚ) + 1 := by push_cast; ring
    · rintro ⟨h1, h2⟩
      have hle : (i : ℚ) ≤ u * n := by
        have := (div_le_iff₀ hnq).mp h1
        linarith
      have hlt : u * (n : ℚ) < (i : ℚ) + 1 := by
        have := (lt_div_iff₀ hnq).mp h2
        linarith
      have hz : ⌊u * (n : ℚ)⌋ = (i : ℤ) :=
        Int.floor_eq_iff.mpr ⟨by push_cast; linarith, by push_cast; linarith⟩
      omega

theorem pinch_focus_selection_witness :
    ((⟨AppMode.TREE, none, 0, false, 2, Gesture.NONE⟩ : AppState).editing = false ∧
     (1000 : ℤ) ≤ 2000 - 0 ∧
     0 < (⟨AppMode.TREE, none, 0, false, 2, Gesture.NONE⟩ : AppState).images ∧
     (⟨AppMode.TREE, none, 0, false, 2, Gesture.NONE⟩ : AppState).mode ≠ AppMode.FOCUS ∧
     (0 : ℚ) ≤ 1 / 2 ∧ (1 : ℚ) / 2 < 1) ∧
    ((handleGestureUpdate ⟨AppMode.TREE, none, 0, false, 2, Gesture.NONE⟩
        Gesture.PINCH 2000 (1 / 2)).mode = AppMode.FOCUS ∧
     (handleGestureUpdate ⟨AppMode.TREE, none, 0, false, 2, Gesture.NONE⟩
        Gesture.PINCH 2000 (1 / 2)).focus =
       some (Int.toNat ⌊(1 / 2 : ℚ) * ((2 : ℕ) : ℚ)⌋) ∧
     Int.toNat ⌊(1 / 2 : ℚ) * ((2 : ℕ) : ℚ)⌋ < 2) :=
  ⟨⟨rfl, by norm_num, by norm_num, by decide, by norm_num, by norm_num⟩,
   pinch_focus_selection.2.1 ⟨AppMode.TREE, none, 0, false, 2, Gesture.NONE⟩
     2000 (1 / 2) rfl (by norm_num) (by norm_num) (by decide)
     (by norm_num) (by norm_num)⟩

/-- A fixed 21-point landmark frame used as a concrete input. -/
def sampleLandmarks : List (ℝ × ℝ) := List.replicate 21 ((0 : ℝ), (0 : ℝ))

/-- Claim C8: the landmark normalizer returns the all-zero, not-detected,
NONE summary when no hand is present or fewer than 21 landmarks are
available; otherwise it detects the hand with
`x = (middleMCP.x - 0.5)·(-2)`, `y = (middleMCP.y - 0.5)·2` and
`handSize` the euclidean distance between middle MCP (landmark 9) and
wrist (landmark 0) in normalized image-plane units. -/
theorem predictSummary_normalizer :
    predictSummary none = ⟨0, 0, 0, false, Gesture.NONE⟩ ∧
    (∀ l : List (ℝ × ℝ), l.length < 21 →
        predictSummary (some l) = ⟨0, 0, 0, false, Gesture.NONE⟩) ∧
    (∀ l : List (ℝ × ℝ), 21 ≤ l.length →
        (predictSummary (some l)).isDetected = true ∧
        (predictSummary (some l)).x = ((l.getD 9 (0, 0)).1 - 1 / 2) * (-2) ∧
        (predictSummary (some l)).y = ((l.getD 9 (0, 0)).2 - 1 / 2) * 2 ∧
        (predictSummary (some l)).handSize =
          Real.sqrt (((l.getD 9 (0, 0)).1 - (l.getD 0 (0, 0)).1) ^ 2 +
                     ((l.getD 9 (0, 0)).2 - (l.getD 0 (0, 0)).2) ^ 2)) := by
  refine ⟨rfl, ?_, ?_⟩
  · intro l h
    simp only [predictSummary]
    rw [if_neg (by omega)]
  · intro l h
    simp only [predictSummary]
    rw [if_pos h]
    exact ⟨rfl, rfl, rfl, rfl⟩

theorem predictSummary_normalizer_witness :
    (([] : List (ℝ × ℝ)).length < 21 ∧
     predictSummary (some ([] : List (ℝ × ℝ))) = ⟨0, 0, 0, false, Gesture.NONE⟩) ∧
    (21 ≤ sampleLandmarks.length ∧
     ((predictSummary (some sampleLandmarks)).isDetected = true ∧
      (predictSummary (some sampleLandmarks)).x =
        ((sampleLandmarks.getD 9 (0, 0)).1 - 1 / 2) * (-2) ∧
      (predictSummary (some sampleLandmarks)).y =
        ((sampleLandmarks.getD 9 (0, 0)).2 - 1 / 2) * 2 ∧
      (predictSummary (some sampleLandmarks)).handSize =
        Real.sqrt (((sampleLandmarks.getD 9 (0, 0)).1 -
                      (sampleLandmarks.getD 0 (0, 0)).1) ^ 2 +
                   ((sampleLandmarks.getD 9 (0, 0)).2 -
                      (sampleLandmarks.getD 0 (0, 0)).2) ^ 2))) :=
  ⟨⟨by simp, predictSummary_normalizer.2.1 [] (by simp)⟩,
   ⟨by simp [sampleLandmarks],
    predictSummary_normalizer.2.2 sampleLandmarks (by simp [sampleLandmarks])⟩⟩

theorem sphericalChaos_norm3 (base extra u1 u2 u3 : ℝ)
    (h : 0 ≤ base + u3 * extra) :
    norm3 (sphericalChaos base extra u1 u2 u3) = base + u3 * extra := by
  have hsum : ∀ r a p : ℝ,
      (r * Real.sin p * Real.cos a) ^ 2 + (r * Real.sin p * Real.sin a) ^ 2 +
        (r * Real.cos p) ^ 2 = r ^ 2 := by
    intro r a p
    have h1 := Real.sin_sq_add_cos_sq a
    have h2 := Real.sin_sq_add_cos_sq p
    linear_combination (r ^ 2 * Real.sin p ^ 2) * h1 + r ^ 2 * h2
  simp only [norm3, sphericalChaos]
  rw [hsum]
  exact Real.sqrt_sq h

/-- Claim C9 counterexample: the spiral kind's chaos sampler
(`generateSpiralData`) is not a spherical-shell sampler — the draw
`(0.5, 0.5, 0.5)` lands exactly at the origin, so no positive base radius
lower-bounds the norms of spiral chaos positions, contradicting the claim
that every element kind's chaos position has norm at least its kind's base
radius. -/
theorem spiralChaos_breaks_shell_bound :
    spiralChaos (1 / 2) (1 / 2) (1 / 2) = ((0 : ℚ), (0 : ℚ), (0 : ℚ)) ∧
    ¬ ∃ base : ℚ, 0 < base ∧
        ∀ u1 u2 u3 : ℚ, 0 ≤ u1 → u1 < 1 → 0 ≤ u2 → u2 < 1 → 0 ≤ u3 → u3 < 1 →
          base ^ 2 ≤ normSq3 (spiralChaos u1 u2 u3) := by
  constructor
  · norm_num [spiralChaos]
  · rintro ⟨b, hb, h⟩
    have hmid := h (1 / 2) (1 / 2) (1 / 2) (by norm_num) (by norm_num)
      (by norm_num) (by norm_num) (by norm_num) (by norm_num)
    simp only [spiralChaos, normSq3] at hmid
    nlinarith

/-- Claim C9 (amended): the foliage and ornament kinds sample their chaos
position on a sphere shell via `θ = 2π·rand`, `φ = acos(2·rand − 1)` and a
radius `base + rand·extra`, so the norm lies between the base radius and
base plus the maximum extra offset (foliage: between 20 and 40; ornaments:
between `scatterRadius` and `scatterRadius + 10`); the spiral kind,
however, draws each coordinate independently and uniformly from
`[−22.5, 22.5]` — a cube that even contains the origin, not a spherical
shell. -/
theorem chaos_formation_bounds :
    (∀ u1 u2 u3 : ℝ, 0 ≤ u3 → u3 ≤ 1 →
        20 ≤ norm3 (treeChaos u1 u2 u3) ∧ norm3 (treeChaos u1 u2 u3) ≤ 40) ∧
    (∀ scatterRadius u1 u2 u3 : ℝ, 0 ≤ scatterRadius → 0 ≤ u3 → u3 ≤ 1 →
        scatterRadius ≤ norm3 (ornamentChaos scatterRadius u1 u2 u3) ∧
        norm3 (ornamentChaos scatterRadius u1 u2 u3) ≤ scatterRadius + 10) ∧
    (∀ u1 u2 u3 : ℚ, 0 ≤ u1 → u1 ≤ 1 → 0 ≤ u2 → u2 ≤ 1 → 0 ≤ u3 → u3 ≤ 1 →
        |(spiralChaos u1 u2 u3).1| ≤ 45 / 2 ∧
        |(spiralChaos u1 u2 u3).2.1| ≤ 45 / 2 ∧
        |(spiralChaos u1 u2 u3).2.2| ≤ 45 / 2) ∧
    spiralChaos (1 / 2) (1 / 2) (1 / 2) = ((0 : ℚ), (0 : ℚ), (0 : ℚ)) := by
  refine ⟨?_, ?_, ?_, by norm_num [spiralChaos]⟩
  · intro u1 u2 u3 h0 h1
    have hr : (0 : ℝ) ≤ 20 + u3 * 20 := by nlinarith
    have := sphericalChaos_norm3 20 20 u1 u2 u3 hr
    unfold treeChaos
    rw [this]
    constructor <;> nlinarith
  · intro R u1 u2 u3 hR h0 h1
    have hr : (0 : ℝ) ≤ R + u3 * 10 := by nlinarith
    have := sphericalChaos_norm3 R 10 u1 u2 u3 hr
    unfold ornamentChaos
    rw [this]
    constructor <;> nlinarith
  · intro u1 u2 u3 h10 h11 h20 h21 h30 h31
    simp only [spiralChaos]
    refine ⟨?_, ?_, ?_⟩ <;> rw [abs_le] <;> constructor <;> nlinarith

theorem chaos_formation_bounds_witness :
    ((0 : ℝ) ≤ 0 ∧ (0 : ℝ) ≤ 1 ∧
     (20 ≤ norm3 (treeChaos 0 0 0) ∧ norm3 (treeChaos 0 0 0) ≤ 40)) ∧
    ((0 : ℝ) ≤ 15 ∧
     (15 ≤ norm3 (ornamentChaos 15 0 0 1) ∧
      norm3 (ornamentChaos 15 0 0 1) ≤ 15 + 10)) ∧
    (|(spiralChaos 1 0 (1 / 2)).1| ≤ 45 / 2 ∧
     |(spiralChaos 1 0 (1 / 2)).2.1| ≤ 45 / 2 ∧
     |(spiralChaos 1 0 (1 / 2)).2.2| ≤ 45 / 2) :=
  ⟨⟨by norm_num, by norm_num,
    chaos_formation_bounds.1 0 0 0 (by norm_num) (by norm_num)⟩,
   ⟨by norm_num,
    chaos_formation_bounds.2.1 15 0 0 1 (by norm_num) (by norm_num) (by norm_num)⟩,
   chaos_formation_bounds.2.2.1 1 0 (1 / 2) (by norm_num) (by norm_num)
     (by norm_num) (by norm_num) (by norm_num) (by norm_num)⟩
